import Mathlib

/-!
Verification of the gofasta server3 per-vehicle ETA tracking pipeline.

The definitions below are a shallow embedding of the live code:

* `src/index.js`: the ETA pipeline orchestrator `computeBusETA`, the countdown
  helper `applyCountdown`, the status derivation, and the polyline decoder.
* `src/utils/smoothing.js`: `kalmanFilter1D`, `exponentialMovingAverage` and
  `smoothETA`.

Modelling conventions:

* JavaScript numbers are modelled by `ℚ` (the pipeline only performs field
  arithmetic, `min`/`max`, comparisons and `Math.round`/`Math.floor`, all of
  which are exact on the rationals for the values the code manipulates).
* A JavaScript value that may be `undefined`/`null`/`NaN` is modelled by an
  `Option`; JS truthiness of a number (`!x` is true for `undefined`, `NaN`
  and `0`) is spelled out at each use site.
* The haversine distance `distanceMeters` is transcendental, so
  `computeBusETA` takes the distance function as an explicit parameter
  `distM`; every theorem quantifies over it.
* The asynchronous Google Directions call `getGoogleRouteData` never throws
  (it catches every error and returns `null`), so its outcome for the one
  call a cycle can make is passed in as `googleResult : Option RouteData`.
* The mutation `etaCache.set(busId, c)` is reified in the result field
  `cacheWrite : Option Cache`: `some c` exactly when the code executes the
  `set`, `none` when the vehicle's entry is left untouched.
-/

namespace Server3

/-- A coordinate pair `{lat, lng}` as used throughout `src/index.js`. -/
structure Coord where
  lat : ℚ
  lng : ℚ
deriving DecidableEq

/-- `ETA_REFRESH_MS = 30_000` from `src/index.js`. -/
def ETA_REFRESH_MS : ℚ := 30000

/-- `ARRIVAL_DISTANCE_M = 50` from `src/index.js`. -/
def ARRIVAL_DISTANCE_M : ℚ := 50

/-- `STALE_DEVICE_MS = 10 * 60 * 1000` from `src/index.js`. -/
def STALE_DEVICE_MS : ℚ := 10 * 60 * 1000

/-- The fixed destination `{ lat: -1.9683524, lng: 30.0890925 }` from `src/index.js`. -/
def DESTINATION : Coord := ⟨-1.9683524, 30.0890925⟩

/-- JavaScript `Math.round`: round half toward positive infinity. -/
def jsRound (q : ℚ) : ℤ := ⌊q + 1 / 2⌋

/-- One raw device record as consumed by `computeBusETA`.

`last_lat`/`last_lon` model `Number(device.last_lat)` etc.: `none` stands for
a missing field or a non-numeric value (both become `NaN` under `Number`).
`last_update` is the epoch-millisecond value `new Date(device.last_update).getTime()`.
`device_id` models `device.device_id || device.id` (the `device.id` fallback
for alternate feeds is collapsed into the single field; no claim depends on
it), and `plate_number` is `none` when the field is absent. -/
structure Device where
  device_id : String
  plate_number : Option String
  last_lat : Option ℚ
  last_lon : Option ℚ
  last_speed : ℚ
  last_update : ℚ
deriving DecidableEq

/-- The non-null result of `getGoogleRouteData` (`durationSeconds` plus the
decoded `routePoints`); a failed/timed-out/non-OK call is `none`. -/
structure RouteData where
  durationSeconds : ℚ
  routePoints : List Coord
deriving DecidableEq

/-- One `etaCache` entry.  A fresh `{}` (vehicle never refreshed) has every
field `none`; `etaCache.get(busId) || {}` is `entry.getD {}`. -/
structure Cache where
  etaSeconds : Option ℚ := none
  route : Option (List Coord) := none
  lastEtaUpdate : Option ℚ := none
  previousEta : Option ℚ := none
deriving DecidableEq

/-- The payload object assembled by `computeBusETA`.  `eta` is `none` exactly
when the code emits `eta: null` (offline branch); otherwise it is the rounded
minutes (or the literal `0` of the arrival branch). -/
structure Payload where
  busId : String
  plateNumber : String
  position : Coord
  eta : Option ℤ
  etaSeconds : ℚ
  status : String
  message : String
  lastUpdate : ℚ
  speed : ℚ
  route : List Coord
deriving DecidableEq

/-- The observable outcome of one `computeBusETA` cycle: the returned payload
(`none` models `return null`), the `etaCache.set` write if one happened, and
whether the cycle awaited `getGoogleRouteData` (the provider call). -/
structure StepResult where
  payload : Option Payload
  cacheWrite : Option Cache
  calledProvider : Bool
deriving DecidableEq

/-- `applyCountdown` from `src/index.js` lines 117-122:
`if (!etaSeconds || !lastUpdate) return 0; return Math.max(0, etaSeconds - (now - lastUpdate) / 1000)`.
`none` models `undefined`; the `0` cases spell out JS falsiness of the number `0`. -/
def applyCountdown (etaSeconds lastUpdate : Option ℚ) (now : ℚ) : ℚ :=
  match etaSeconds, lastUpdate with
  | some e, some l =>
      if e = 0 ∨ l = 0 then 0 else max 0 (e - (now - l) / 1000)
  | _, _ => 0

/-- Status derivation of `computeBusETA` lines 273-284.  The guard
`cache.previousEta && (etaSeconds - cache.previousEta) >= 90` is falsy when
`previousEta` is `undefined` or `0`; with `previousEta` `undefined` the
`else if (etaSeconds < cache.previousEta - 60)` comparison is a `NaN`
comparison and hence false, so the result is `normal`. -/
def statusMessage (etaSeconds : ℚ) (previousEta : Option ℚ) : String × String :=
  match previousEta with
  | none => ("normal", "On the way")
  | some p =>
      if p ≠ 0 ∧ etaSeconds - p ≥ 90 then ("traffic", "Delayed by traffic")
      else if etaSeconds < p - 60 then ("faster", "Moving quickly")
      else ("normal", "On the way")

/-- The refresh decision of `computeBusETA` line 235:
`!cache.lastEtaUpdate || (now - cache.lastEtaUpdate >= ETA_REFRESH_MS)`.
An absent or `0` timestamp is falsy, forcing the refresh. -/
def shouldRefreshEta (cache : Cache) (now : ℚ) : Bool :=
  match cache.lastEtaUpdate with
  | none => true
  | some t => decide (t = 0) || decide (ETA_REFRESH_MS ≤ now - t)

/-- `computeBusETA` from `src/index.js` lines 168-305 (one tracking cycle for
one device).  `distM` stands for the haversine `distanceMeters`, `entry` is
the vehicle's current `etaCache` entry (`none` when absent), `now` is
`Date.now()` and `googleResult` is the outcome the provider call would
deliver this cycle.  The coordinate guard
`if (!lat || !lng || isNaN(lat) || isNaN(lng)) return null` rejects a missing
or `NaN` coordinate (`none`) and also the numeric value `0` (falsy). -/
def computeBusETA (distM : Coord → Coord → ℚ) (device : Device) (entry : Option Cache)
    (now : ℚ) (googleResult : Option RouteData) : StepResult :=
  let busId := device.device_id
  let plate := device.plate_number.getD ("Bus " ++ busId)
  let lastUpdate := device.last_update
  match device.last_lat, device.last_lon with
  | some lat, some lng =>
    if lat = 0 ∨ lng = 0 then { payload := none, cacheWrite := none, calledProvider := false }
    else
      let position : Coord := ⟨lat, lng⟩
      if STALE_DEVICE_MS < now - lastUpdate then
        { payload := some { busId, plateNumber := plate, position, eta := none, etaSeconds := 0,
                            status := "offline", message := "Device offline",
                            lastUpdate, speed := device.last_speed, route := [] },
          cacheWrite := none, calledProvider := false }
      else
        let cache := entry.getD {}
        let dist := distM position DESTINATION
        if dist ≤ ARRIVAL_DISTANCE_M then
          { payload := some { busId, plateNumber := plate, position, eta := some 0,
                              etaSeconds := 0, status := "arrived",
                              message := "Arrived at destination",
                              lastUpdate, speed := device.last_speed, route := [] },
            cacheWrite := some { cache with etaSeconds := some 0, lastEtaUpdate := some now,
                                            route := some [] },
            calledProvider := false }
        else
          let step : ℚ × List Coord × Option Cache × Bool :=
            if shouldRefreshEta cache now then
              match googleResult with
              | some g =>
                  (g.durationSeconds, g.routePoints,
                   some { etaSeconds := some g.durationSeconds, route := some g.routePoints,
                          lastEtaUpdate := some now, previousEta := cache.etaSeconds },
                   true)
              | none => (cache.etaSeconds.getD 0, cache.route.getD [], none, true)
            else
              (applyCountdown cache.etaSeconds cache.lastEtaUpdate now,
               cache.route.getD [], none, false)
          let etaSeconds := step.1
          let sm := statusMessage etaSeconds cache.previousEta
          let finalEtaMin := jsRound (etaSeconds / 60)
          { payload := some { busId, plateNumber := plate, position, eta := some finalEtaMin,
                              etaSeconds, status := sm.1, message := sm.2,
                              lastUpdate, speed := device.last_speed, route := step.2.1 },
            cacheWrite := step.2.2.1, calledProvider := step.2.2.2 }
  | _, _ => { payload := none, cacheWrite := none, calledProvider := false }

/-- One-dimensional Kalman filter state, `src/utils/smoothing.js`. -/
structure Kalman1D where
  value : ℚ
  errorCovariance : ℚ
deriving DecidableEq

/-- `kalmanFilter1D` from `src/utils/smoothing.js` lines 23-45.  A `none`
state initializes the filter at the measurement with covariance `1.0`. -/
def kalmanFilter1D (state : Option Kalman1D) (measurement processNoise measurementNoise : ℚ) :
    Kalman1D :=
  match state with
  | none => { value := measurement, errorCovariance := 1 }
  | some st =>
      let predictedValue := st.value
      let predictedErrorCovariance := st.errorCovariance + processNoise
      let kalmanGain := predictedErrorCovariance / (predictedErrorCovariance + measurementNoise)
      let updatedValue := predictedValue + kalmanGain * (measurement - predictedValue)
      let updatedErrorCovariance := (1 - kalmanGain) * predictedErrorCovariance
      { value := updatedValue, errorCovariance := updatedErrorCovariance }

/-- `exponentialMovingAverage` from `src/utils/smoothing.js` lines 104-109.
`none` models a `null`/`undefined` previous value. -/
def exponentialMovingAverage (previousValue : Option ℚ) (newValue alpha : ℚ) : ℚ :=
  match previousValue with
  | none => newValue
  | some p => alpha * newValue + (1 - alpha) * p

/-- The ETA smoothing state `{ eta, etaFilter, etaEMA }` returned by
`smoothETA`; the whole state is `Option`al at call sites (`null` before the
first update). -/
structure EtaSmooth where
  eta : ℚ
  etaFilter : Option Kalman1D
  etaEMA : ℚ
deriving DecidableEq

/-- `smoothETA` from `src/utils/smoothing.js` lines 164-234.  `rawETA` is
`none` for `null`/`undefined`/`NaN`; `smoothedSpeed` and `distance` are
accepted and ignored exactly as in the source.  The two guards
`state?.etaEMA !== undefined && state.etaEMA > 0` become a match on the
optional state plus the positivity test. -/
def smoothETA (state : Option EtaSmooth) (rawETA : Option ℚ) (smoothedSpeed distance : ℚ) :
    EtaSmooth :=
  match rawETA with
  | none => state.getD { eta := 0, etaFilter := none, etaEMA := 0 }
  | some raw =>
    if raw < 0 then state.getD { eta := 0, etaFilter := none, etaEMA := 0 }
    else
      let clampedETA := max 0 (min 3600 raw)
      let targetETA :=
        match state with
        | some st =>
            if 0 < st.etaEMA then
              let previousETA := st.etaEMA
              let maxDecrease := previousETA * 0.05
              let maxIncrease := previousETA * 0.02
              if clampedETA < previousETA - maxDecrease then previousETA - maxDecrease
              else if previousETA + maxIncrease < clampedETA then previousETA + maxIncrease
              else clampedETA
            else clampedETA
        | none => clampedETA
      let etaFilter := kalmanFilter1D (state.bind EtaSmooth.etaFilter) targetETA 1 15
      let etaEMA :=
        exponentialMovingAverage (some ((state.map EtaSmooth.etaEMA).getD targetETA))
          etaFilter.value 0.05
      let adjustedETA :=
        match state with
        | some st =>
            if 0 < st.etaEMA then
              let maxChange := st.etaEMA * 0.05
              if maxChange < |etaEMA - st.etaEMA| then
                if etaEMA < st.etaEMA then st.etaEMA - maxChange else st.etaEMA + maxChange
              else etaEMA
            else etaEMA
        | none => etaEMA
      { eta := max 0 adjustedETA, etaFilter := some etaFilter, etaEMA := adjustedETA }

/-- The invariant the smoothing engine maintains on its ETA state: the EMA is
nonnegative, and the Kalman sub-state (when initialized) has nonnegative
value and error covariance.  The latter two facts are what make the
nonnegativity of the EMA inductive across `smoothETA` updates. -/
def EtaInvariant (s : EtaSmooth) : Prop :=
  0 ≤ s.etaEMA ∧ ∀ f, s.etaFilter = some f → 0 ≤ f.value ∧ 0 ≤ f.errorCovariance

/-- `decodeVarint` models one inner `do ... while` of `decodePolyline`
(`src/index.js` lines 91-109): it folds base-32 chunks
`result |= (b & 0x1f) << shift` until a chunk below `0x20` arrives, and
returns the accumulated value together with the unread rest.  Chunks land at
disjoint bit positions, so the bitwise or is integer addition; the values
reached from real coordinates stay far below `2^31`, where JS 32-bit bitwise
arithmetic agrees with `ℤ`.  Running off the end of the string (malformed
input) ends the loop, as the `NaN` of `charCodeAt` does in JS. -/
def decodeVarint : List ℕ → ℕ → ℤ → ℤ × List ℕ
  | [], _, result => (result, [])
  | c :: rest, shift, result =>
      let b : ℤ := (c : ℤ) - 63
      let result1 := result + b % 32 * 2 ^ shift
      if 32 ≤ b then decodeVarint rest (shift + 5) result1 else (result1, rest)

/-- Two's-complement unpacking of a decoded run:
`(result & 1) !== 0 ? ~(result >> 1) : (result >> 1)` from `decodePolyline`.
The values decoded here are nonnegative, where `Int` division by 2 agrees
with the JS arithmetic shift. -/
def unzigzag (result : ℤ) : ℤ :=
  if result % 2 ≠ 0 then -(result / 2) - 1 else result / 2

/-- The outer `while (index < len)` loop of `decodePolyline`, with a fuel
argument for structural recursion: each iteration consumes at least one
character, so fuel `cs.length` never runs out. `lat`/`lng` accumulate the
scaled integer coordinates and each point is emitted as `lat / 1e5`. -/
def decodeLoop : ℕ → List ℕ → ℤ → ℤ → List Coord
  | 0, _, _, _ => []
  | _ + 1, [], _, _ => []
  | fuel + 1, c :: rest, lat, lng =>
      let pl := decodeVarint (c :: rest) 0 0
      let lat1 := lat + unzigzag pl.1
      let pn := decodeVarint pl.2 0 0
      let lng1 := lng + unzigzag pn.1
      ⟨(lat1 : ℚ) / 100000, (lng1 : ℚ) / 100000⟩ :: decodeLoop fuel pn.2 lat1 lng1

/-- `decodePolyline` from `src/index.js` lines 85-115, over the sequence of
character codes of the encoded string.  The guard `if (!encoded) return []`
is the empty-input case of the loop. -/
def decodePolyline (encoded : List ℕ) : List Coord :=
  decodeLoop encoded.length encoded 0 0

/-- Modelled from the spec: zigzag mapping of the polyline encoder (§4.4,
"Encoding is the algorithmic inverse").  The repository has no encoder under
`src/`; this is the standard left-shift-and-invert step
`v < 0 ? ~(v << 1) : (v << 1)` the decoder's unpacking inverts. -/
def zigzag (v : ℤ) : ℕ :=
  if v < 0 then (-(2 * v) - 1).toNat else (2 * v).toNat

/-- Modelled from the spec: base-32 chunking of one zigzagged value into
character codes (continuation bit `0x20`, offset 63), the inverse of one
`decodeVarint` run.  Fuel for structural recursion; fuel `s` suffices since
the value shrinks by a factor of 32 each step. -/
def chunksFuel : ℕ → ℕ → List ℕ
  | 0, s => [s + 63]
  | fuel + 1, s => if s < 32 then [s + 63] else (63 + 32 + s % 32) :: chunksFuel fuel (s / 32)

/-- Modelled from the spec: encode one signed scaled delta. -/
def encodeValue (v : ℤ) : List ℕ :=
  chunksFuel (zigzag v) (zigzag v)

/-- Modelled from the spec: encode the list of scaled integer coordinates as
consecutive deltas from the previously emitted point. -/
def encodeDeltas : List (ℤ × ℤ) → ℤ → ℤ → List ℕ
  | [], _, _ => []
  | (la, ln) :: rest, plat, plng =>
      encodeValue (la - plat) ++ encodeValue (ln - plng) ++ encodeDeltas rest la ln

/-- Modelled from the spec: the polyline encoder (§4.4), scale factor `1e5`
with `Math.round` on each coordinate, then delta/zigzag/base-32 chunks. -/
def encodePolyline (path : List Coord) : List ℕ :=
  encodeDeltas (path.map fun p => (jsRound (p.lat * 100000), jsRound (p.lng * 100000))) 0 0

/-- Modelled from the spec: the ETA refresh predicate of §4.2 as the claims
state it (interval or 100 m of movement, with the stationary suppression
below 50 m unless the cache is over twice the interval old), for comparison
with the decision `computeBusETA` actually takes. -/
def specShouldRefreshEta (etaRefreshedAt : Option ℚ) (now movedMeters : ℚ) (isMoving : Bool) :
    Bool :=
  let expired := match etaRefreshedAt with
    | none => true
    | some t => decide (ETA_REFRESH_MS ≤ now - t)
  let trigger := expired || decide (100 < movedMeters)
  if !isMoving && decide (movedMeters < 50) then
    match etaRefreshedAt with
    | none => trigger
    | some t => decide (2 * ETA_REFRESH_MS < now - t)
  else trigger

/-- C5: a fix whose observation timestamp is more than the 10-minute stale
threshold old yields the offline payload — `status = "offline"`, `eta = null`,
empty `route` — and the vehicle's cache entry is not written at all. -/
theorem C5_offline (dm : Coord → Coord → ℚ) (id : String) (plate : Option String)
    (la ln sp lu now : ℚ) (entry : Option Cache) (g : Option RouteData)
    (hla : la ≠ 0) (hln : ln ≠ 0) (hstale : STALE_DEVICE_MS < now - lu) :
    computeBusETA dm ⟨id, plate, some la, some ln, sp, lu⟩ entry now g =
      { payload := some
          { busId := id, plateNumber := plate.getD ("Bus " ++ id),
            position := ⟨la, ln⟩, eta := none, etaSeconds := 0, status := "offline",
            message := "Device offline", lastUpdate := lu, speed := sp, route := [] },
        cacheWrite := none, calledProvider := false } := by
  simp only [computeBusETA]
  rw [if_neg (not_or.mpr ⟨hla, hln⟩), if_pos hstale]

/-- Closed instance of `C5_offline`: an 11-minute-old fix (now = 760000,
last update = 100000) is classified offline with a null ETA, empty path and
untouched cache. -/
theorem C5_offline_witness :
    STALE_DEVICE_MS < (760000 : ℚ) - 100000 ∧
    computeBusETA (fun _ _ => 5000) ⟨"bus-1", none, some 1, some 2, 3, 100000⟩ none 760000 none =
      { payload := some
          { busId := "bus-1", plateNumber := "Bus bus-1",
            position := ⟨1, 2⟩, eta := none, etaSeconds := 0, status := "offline",
            message := "Device offline", lastUpdate := 100000, speed := 3, route := [] },
        cacheWrite := none, calledProvider := false } :=
  ⟨by norm_num [STALE_DEVICE_MS],
   C5_offline _ _ _ _ _ _ _ _ _ _ (by norm_num) (by norm_num) (by norm_num [STALE_DEVICE_MS])⟩

/-- C6: a non-stale fix within the 50 m arrival radius yields the arrived
payload with `etaSeconds = 0`, and the cache entry is rewritten with
`etaSeconds = 0`, a fresh refresh timestamp and a cleared path. -/
theorem C6_arrival (dm : Coord → Coord → ℚ) (id : String) (plate : Option String)
    (la ln sp lu now : ℚ) (entry : Option Cache) (g : Option RouteData)
    (hla : la ≠ 0) (hln : ln ≠ 0) (hstale : ¬ STALE_DEVICE_MS < now - lu)
    (harr : dm ⟨la, ln⟩ DESTINATION ≤ ARRIVAL_DISTANCE_M) :
    computeBusETA dm ⟨id, plate, some la, some ln, sp, lu⟩ entry now g =
      { payload := some
          { busId := id, plateNumber := plate.getD ("Bus " ++ id),
            position := ⟨la, ln⟩, eta := some 0, etaSeconds := 0, status := "arrived",
            message := "Arrived at destination", lastUpdate := lu, speed := sp, route := [] },
        cacheWrite := some
          { entry.getD {} with etaSeconds := some 0, lastEtaUpdate := some now,
                               route := some [] },
        calledProvider := false } := by
  simp only [computeBusETA]
  rw [if_neg (not_or.mpr ⟨hla, hln⟩), if_neg hstale, if_pos harr]

/-- Closed instance of `C6_arrival`: a fresh fix 10 m from the destination
arrives with `etaSeconds = 0` and the cache is reset. -/
theorem C6_arrival_witness :
    (10 : ℚ) ≤ ARRIVAL_DISTANCE_M ∧
    computeBusETA (fun _ _ => 10) ⟨"bus-1", none, some 1, some 2, 3, 100000⟩
        (some { etaSeconds := some 240, route := some [⟨1, 2⟩], lastEtaUpdate := some 90000,
                previousEta := some 300 }) 100000 none =
      { payload := some
          { busId := "bus-1", plateNumber := "Bus bus-1",
            position := ⟨1, 2⟩, eta := some 0, etaSeconds := 0, status := "arrived",
            message := "Arrived at destination", lastUpdate := 100000, speed := 3,
            route := [] },
        cacheWrite := some
          { etaSeconds := some 0, route := some [], lastEtaUpdate := some 100000,
            previousEta := some 300 },
        calledProvider := false } :=
  ⟨by norm_num [ARRIVAL_DISTANCE_M],
   C6_arrival _ _ _ _ _ _ _ _ _ _ (by norm_num) (by norm_num)
     (by norm_num [STALE_DEVICE_MS]) (by norm_num [ARRIVAL_DISTANCE_M])⟩

/-- The refresh decision is `false` exactly for a truthy, sufficiently recent
timestamp. -/
theorem shouldRefreshEta_false (cache : Cache) (now t : ℚ)
    (ht : cache.lastEtaUpdate = some t) (ht0 : t ≠ 0) (hfresh : now - t < ETA_REFRESH_MS) :
    shouldRefreshEta cache now = false := by
  simp [shouldRefreshEta, ht, ht0, not_le.mpr hfresh]

/-- Characterization of the refresh decision taken by `computeBusETA`. -/
theorem shouldRefreshEta_true_iff (cache : Cache) (now : ℚ) :
    shouldRefreshEta cache now = true ↔
      (cache.lastEtaUpdate = none ∨
        ∃ t, cache.lastEtaUpdate = some t ∧ (t = 0 ∨ ETA_REFRESH_MS ≤ now - t)) := by
  unfold shouldRefreshEta
  rcases h : cache.lastEtaUpdate with _ | t <;> simp [h]

/-- C1, counterexample to the claimed refresh policy: a moving vehicle
(speed 40) that has moved 200 m since the last refresh, whose cache is only
10 s old, must refresh according to the spec's movement-based predicate, yet
`computeBusETA` performs no routing-provider call on that cycle (its decision
is purely time-based). -/
theorem C1_counterexample :
    specShouldRefreshEta (some 100000) 110000 200 true = true ∧
    (computeBusETA (fun _ _ => 5000) ⟨"bus-1", none, some 1, some 2, 40, 105000⟩
        (some { etaSeconds := some 120, route := some [], lastEtaUpdate := some 100000,
                previousEta := none }) 110000
        (some { durationSeconds := 90, routePoints := [] })).calledProvider = false := by
  constructor
  · norm_num [specShouldRefreshEta, ETA_REFRESH_MS]
  · norm_num [computeBusETA, shouldRefreshEta, applyCountdown, statusMessage, jsRound,
      STALE_DEVICE_MS, ARRIVAL_DISTANCE_M, ETA_REFRESH_MS, DESTINATION]

/-- C1, amended: on a tracking cycle (usable coordinates, not stale, not
arrived) `computeBusETA` calls the routing provider exactly when the cached
`lastEtaUpdate` is missing or falsy, or at least `ETA_REFRESH_MS` old;
distance moved and movement state play no role in the decision. -/
theorem C1_refresh_decision (dm : Coord → Coord → ℚ) (id : String) (plate : Option String)
    (la ln sp lu now : ℚ) (entry : Option Cache) (g : Option RouteData)
    (hla : la ≠ 0) (hln : ln ≠ 0) (hstale : ¬ STALE_DEVICE_MS < now - lu)
    (hfar : ¬ dm ⟨la, ln⟩ DESTINATION ≤ ARRIVAL_DISTANCE_M) :
    (computeBusETA dm ⟨id, plate, some la, some ln, sp, lu⟩ entry now g).calledProvider = true ↔
      ((entry.getD {}).lastEtaUpdate = none ∨
        ∃ t, (entry.getD {}).lastEtaUpdate = some t ∧ (t = 0 ∨ ETA_REFRESH_MS ≤ now - t)) := by
  rw [← shouldRefreshEta_true_iff]
  simp only [computeBusETA]
  rw [if_neg (not_or.mpr ⟨hla, hln⟩), if_neg hstale, if_neg hfar]
  rcases hr : shouldRefreshEta (entry.getD {}) now
  · simp [hr]
  · rcases g <;> simp [hr]

/-- Closed instance of `C1_refresh_decision`: with an empty cache the first
cycle forces a provider call. -/
theorem C1_refresh_decision_witness :
    (¬ STALE_DEVICE_MS < (100000 : ℚ) - 95000) ∧
    (computeBusETA (fun _ _ => 5000) ⟨"bus-1", none, some 1, some 2, 40, 95000⟩ none 100000
        (some { durationSeconds := 90, routePoints := [] })).calledProvider = true :=
  ⟨by norm_num [STALE_DEVICE_MS],
   (C1_refresh_decision (fun _ _ => 5000) "bus-1" none 1 2 40 95000 100000 none
       (some { durationSeconds := 90, routePoints := [] }) (by norm_num) (by norm_num)
       (by norm_num [STALE_DEVICE_MS]) (by norm_num [ARRIVAL_DISTANCE_M])).mpr
     (Or.inl rfl)⟩

/-- C2, counterexample: a stationary vehicle (speed 0) with a 120 s cached
ETA refreshed 10 s ago gets `etaSeconds = 110` on the next cycle — the
countdown is applied even though the vehicle is not moving, so the second
payload does not equal the cached 120 s. -/
theorem C2_counterexample :
    ((computeBusETA (fun _ _ => 5000) ⟨"bus-1", none, some 1, some 2, 0, 105000⟩
        (some { etaSeconds := some 120, route := some [], lastEtaUpdate := some 100000,
                previousEta := none }) 110000 none).payload.map Payload.etaSeconds) =
      some 110 ∧ (110 : ℚ) ≠ 120 := by
  constructor
  · norm_num [computeBusETA, shouldRefreshEta, applyCountdown, statusMessage, jsRound,
      STALE_DEVICE_MS, ARRIVAL_DISTANCE_M, ETA_REFRESH_MS, DESTINATION]
  · norm_num

/-- C2, amended: on a tracking cycle where no refresh is due and a truthy
cached ETA exists, the returned `etaSeconds` is the linear countdown
`max 0 (cachedEta - secondsElapsed)` regardless of whether the vehicle is
moving or stationary (the speed `sp` is arbitrary and does not appear in the
ETA), and the cache entry is not written. -/
theorem C2_countdown (dm : Coord → Coord → ℚ) (id : String) (plate : Option String)
    (la ln sp lu now e t : ℚ) (cache : Cache) (g : Option RouteData)
    (hla : la ≠ 0) (hln : ln ≠ 0) (hstale : ¬ STALE_DEVICE_MS < now - lu)
    (hfar : ¬ dm ⟨la, ln⟩ DESTINATION ≤ ARRIVAL_DISTANCE_M)
    (ht : cache.lastEtaUpdate = some t) (ht0 : t ≠ 0) (hfresh : now - t < ETA_REFRESH_MS)
    (he : cache.etaSeconds = some e) (he0 : e ≠ 0) :
    computeBusETA dm ⟨id, plate, some la, some ln, sp, lu⟩ (some cache) now g =
      { payload := some
          { busId := id, plateNumber := plate.getD ("Bus " ++ id),
            position := ⟨la, ln⟩,
            eta := some (jsRound (max 0 (e - (now - t) / 1000) / 60)),
            etaSeconds := max 0 (e - (now - t) / 1000),
            status := (statusMessage (max 0 (e - (now - t) / 1000)) cache.previousEta).1,
            message := (statusMessage (max 0 (e - (now - t) / 1000)) cache.previousEta).2,
            lastUpdate := lu, speed := sp, route := cache.route.getD [] },
        cacheWrite := none, calledProvider := false } := by
  simp only [computeBusETA]
  rw [if_neg (not_or.mpr ⟨hla, hln⟩), if_neg hstale, if_neg hfar]
  simp only [Option.getD_some, shouldRefreshEta_false cache now t ht ht0 hfresh,
    Bool.false_eq_true, if_false, applyCountdown, ht, he]
  rw [if_neg (not_or.mpr ⟨he0, ht0⟩)]

/-- Closed instance of `C2_countdown`: a stationary fix 10 s after a 120 s
refresh counts down to 110 s. -/
theorem C2_countdown_witness :
    ((110000 : ℚ) - 100000 < ETA_REFRESH_MS) ∧
    computeBusETA (fun _ _ => 5000) ⟨"bus-1", none, some 1, some 2, 0, 105000⟩
        (some { etaSeconds := some 120, route := some [], lastEtaUpdate := some 100000,
                previousEta := none }) 110000 none =
      { payload := some
          { busId := "bus-1", plateNumber := "Bus bus-1",
            position := ⟨1, 2⟩,
            eta := some (jsRound (max 0 (120 - ((110000 : ℚ) - 100000) / 1000) / 60)),
            etaSeconds := max 0 (120 - ((110000 : ℚ) - 100000) / 1000),
            status := (statusMessage (max 0 (120 - ((110000 : ℚ) - 100000) / 1000)) none).1,
            message := (statusMessage (max 0 (120 - ((110000 : ℚ) - 100000) / 1000)) none).2,
            lastUpdate := 105000, speed := 0, route := [] },
        cacheWrite := none, calledProvider := false } :=
  ⟨by norm_num [ETA_REFRESH_MS],
   C2_countdown _ _ _ _ _ _ _ _ _ _ _ _ (by norm_num) (by norm_num)
     (by norm_num [STALE_DEVICE_MS]) (by norm_num [ARRIVAL_DISTANCE_M]) rfl (by norm_num)
     (by norm_num [ETA_REFRESH_MS]) rfl (by norm_num)⟩

/-- C3: when a refresh is due but the provider call fails (`getGoogleRouteData`
returns `null` after catching any error, timeout or non-OK status), the cycle
still returns a payload built from the cached ETA and cached path, the cache
entry is not overwritten, and the payload's `eta` is not null. -/
theorem C3_provider_failure (dm : Coord → Coord → ℚ) (id : String) (plate : Option String)
    (la ln sp lu now : ℚ) (cache : Cache)
    (hla : la ≠ 0) (hln : ln ≠ 0) (hstale : ¬ STALE_DEVICE_MS < now - lu)
    (hfar : ¬ dm ⟨la, ln⟩ DESTINATION ≤ ARRIVAL_DISTANCE_M)
    (hdue : shouldRefreshEta cache now = true) :
    computeBusETA dm ⟨id, plate, some la, some ln, sp, lu⟩ (some cache) now none =
      { payload := some
          { busId := id, plateNumber := plate.getD ("Bus " ++ id),
            position := ⟨la, ln⟩,
            eta := some (jsRound (cache.etaSeconds.getD 0 / 60)),
            etaSeconds := cache.etaSeconds.getD 0,
            status := (statusMessage (cache.etaSeconds.getD 0) cache.previousEta).1,
            message := (statusMessage (cache.etaSeconds.getD 0) cache.previousEta).2,
            lastUpdate := lu, speed := sp, route := cache.route.getD [] },
        cacheWrite := none, calledProvider := true } := by
  simp only [computeBusETA]
  rw [if_neg (not_or.mpr ⟨hla, hln⟩), if_neg hstale, if_neg hfar]
  simp [hdue]

/-- Closed instance of `C3_provider_failure`: with a cached 120 s ETA and a
failed provider call, the payload still carries `etaSeconds = 120` and a
non-null `eta`, and nothing is written to the cache. -/
theorem C3_provider_failure_witness :
    shouldRefreshEta
        { etaSeconds := some 120, route := some [⟨1, 2⟩], lastEtaUpdate := some 10000,
          previousEta := none } 110000 = true ∧
    computeBusETA (fun _ _ => 5000) ⟨"bus-1", none, some 1, some 2, 40, 105000⟩
        (some { etaSeconds := some 120, route := some [⟨1, 2⟩], lastEtaUpdate := some 10000,
                previousEta := none }) 110000 none =
      { payload := some
          { busId := "bus-1", plateNumber := "Bus bus-1",
            position := ⟨1, 2⟩,
            eta := some (jsRound ((Option.getD (some (120 : ℚ)) 0) / 60)),
            etaSeconds := Option.getD (some (120 : ℚ)) 0,
            status := (statusMessage (Option.getD (some (120 : ℚ)) 0) none).1,
            message := (statusMessage (Option.getD (some (120 : ℚ)) 0) none).2,
            lastUpdate := 105000, speed := 40, route := [⟨1, 2⟩] },
        cacheWrite := none, calledProvider := true } :=
  ⟨by norm_num [shouldRefreshEta, ETA_REFRESH_MS],
   C3_provider_failure _ _ _ _ _ _ _ _ _ (by norm_num) (by norm_num)
     (by norm_num [STALE_DEVICE_MS]) (by norm_num [ARRIVAL_DISTANCE_M])
     (by norm_num [shouldRefreshEta, ETA_REFRESH_MS])⟩

/-- C10: on a tracking cycle that is neither an arrival nor a due refresh
(the countdown path) `computeBusETA` writes nothing to the vehicle's cache
entry — so every field of the entry is unchanged — and, conversely, whenever
a write does happen the cycle was an arrival or a due refresh on which the
provider call succeeded. -/
theorem C10_frame (dm : Coord → Coord → ℚ) (id : String) (plate : Option String)
    (la ln sp lu now : ℚ) (entry : Option Cache) (g : Option RouteData) :
    ((∀ t, (entry.getD {}).lastEtaUpdate = some t → t ≠ 0 → now - t < ETA_REFRESH_MS →
        la ≠ 0 → ln ≠ 0 → ¬ STALE_DEVICE_MS < now - lu →
        ¬ dm ⟨la, ln⟩ DESTINATION ≤ ARRIVAL_DISTANCE_M →
        (computeBusETA dm ⟨id, plate, some la, some ln, sp, lu⟩ entry now g).cacheWrite =
          none) ∧
      ∀ c, (computeBusETA dm ⟨id, plate, some la, some ln, sp, lu⟩ entry now g).cacheWrite =
          some c →
        dm ⟨la, ln⟩ DESTINATION ≤ ARRIVAL_DISTANCE_M ∨
          (shouldRefreshEta (entry.getD {}) now = true ∧ g.isSome = true)) := by
  constructor
  · intro t ht ht0 hfresh hla hln hstale hfar
    simp only [computeBusETA]
    rw [if_neg (not_or.mpr ⟨hla, hln⟩), if_neg hstale, if_neg hfar]
    simp [shouldRefreshEta_false _ now t ht ht0 hfresh]
  · intro c hc
    simp only [computeBusETA] at hc
    by_cases h0 : la = 0 ∨ ln = 0
    · rw [if_pos h0] at hc; simp at hc
    · rw [if_neg h0] at hc
      by_cases hstale : STALE_DEVICE_MS < now - lu
      · rw [if_pos hstale] at hc; simp at hc
      · rw [if_neg hstale] at hc
        by_cases harr : dm ⟨la, ln⟩ DESTINATION ≤ ARRIVAL_DISTANCE_M
        · exact Or.inl harr
        · rw [if_neg harr] at hc
          rcases hr : shouldRefreshEta (entry.getD {}) now
          · simp [hr] at hc
          · rcases g with _ | g
            · simp [hr] at hc
            · exact Or.inr ⟨rfl, rfl⟩

/-- Closed instance of `C10_frame`: the countdown cycle of the
`C2_countdown_witness` scenario leaves the cache entry unwritten. -/
theorem C10_frame_witness :
    ((110000 : ℚ) - 100000 < ETA_REFRESH_MS) ∧
    (computeBusETA (fun _ _ => 5000) ⟨"bus-1", none, some 1, some 2, 0, 105000⟩
        (some { etaSeconds := some 120, route := some [], lastEtaUpdate := some 100000,
                previousEta := none }) 110000 none).cacheWrite = none :=
  ⟨by norm_num [ETA_REFRESH_MS],
   (C10_frame (fun _ _ => 5000) "bus-1" none 1 2 0 105000 110000
       (some { etaSeconds := some 120, route := some [], lastEtaUpdate := some 100000,
               previousEta := none }) none).1 100000 rfl (by norm_num)
     (by norm_num [ETA_REFRESH_MS]) (by norm_num) (by norm_num)
     (by norm_num [STALE_DEVICE_MS]) (by norm_num [ARRIVAL_DISTANCE_M])⟩

/-- C7, counterexample: a fix whose latitude is the usable numeric value `0`
(on the equator) is rejected — `computeBusETA` returns `null` — because the
guard `!lat` treats `0` as missing; the claim's "including a coordinate equal
to 0" fails on the code. -/
theorem C7_counterexample :
    (computeBusETA (fun _ _ => 5000) ⟨"bus-1", none, some 0, some 30, 40, 100000⟩
        none 100000 none).payload = none := by
  norm_num [computeBusETA]

/-- `applyCountdown` never produces a negative ETA. -/
theorem applyCountdown_nonneg (etaSeconds lastUpdate : Option ℚ) (now : ℚ) :
    0 ≤ applyCountdown etaSeconds lastUpdate now := by
  unfold applyCountdown
  rcases etaSeconds with _ | e <;> rcases lastUpdate with _ | l <;> simp
  split
  · exact le_refl 0
  · exact le_max_left 0 _

/-- C7, amended: `computeBusETA` returns `null` exactly when a coordinate is
missing, `NaN` or the falsy number `0`; on every fix passing that guard it
returns a payload, and when additionally the fix's speed, the cached ETA (if
any) and the provider duration (if delivered) are nonnegative, the payload
has `etaSeconds ≥ 0` and `speed ≥ 0`. -/
theorem C7_total (dm : Coord → Coord → ℚ) (id : String) (plate : Option String)
    (lat0 lon0 : Option ℚ) (sp lu now : ℚ) (entry : Option Cache) (g : Option RouteData) :
    ((computeBusETA dm ⟨id, plate, lat0, lon0, sp, lu⟩ entry now g).payload = none ↔
      (lat0 = none ∨ lat0 = some 0 ∨ lon0 = none ∨ lon0 = some 0)) ∧
    (∀ la ln, lat0 = some la → la ≠ 0 → lon0 = some ln → ln ≠ 0 → 0 ≤ sp →
      (∀ e, (entry.getD {}).etaSeconds = some e → 0 ≤ e) →
      (∀ r, g = some r → 0 ≤ r.durationSeconds) →
      ∃ p, (computeBusETA dm ⟨id, plate, lat0, lon0, sp, lu⟩ entry now g).payload = some p ∧
        0 ≤ p.etaSeconds ∧ 0 ≤ p.speed) := by
  have hbranch : ∀ la ln, la ≠ 0 → ln ≠ 0 → 0 ≤ sp →
      (∀ e, (entry.getD {}).etaSeconds = some e → 0 ≤ e) →
      (∀ r, g = some r → 0 ≤ r.durationSeconds) →
      ∃ p, (computeBusETA dm ⟨id, plate, some la, some ln, sp, lu⟩ entry now g).payload =
          some p ∧ 0 ≤ p.etaSeconds ∧ 0 ≤ p.speed := by
    intro la ln hla hln hsp hcache hg
    simp only [computeBusETA]
    rw [if_neg (not_or.mpr ⟨hla, hln⟩)]
    by_cases hstale : STALE_DEVICE_MS < now - lu
    · rw [if_pos hstale]
      exact ⟨_, rfl, le_refl 0, hsp⟩
    · rw [if_neg hstale]
      by_cases harr : dm ⟨la, ln⟩ DESTINATION ≤ ARRIVAL_DISTANCE_M
      · rw [if_pos harr]
        exact ⟨_, rfl, le_refl 0, hsp⟩
      · rw [if_neg harr]
        rcases hr : shouldRefreshEta (entry.getD {}) now
        · simp only [hr, Bool.false_eq_true, if_false]
          refine ⟨_, rfl, ?_, hsp⟩
          exact applyCountdown_nonneg _ _ _
        · rcases g with _ | r
          · simp only [hr, if_true]
            refine ⟨_, rfl, ?_, hsp⟩
            show 0 ≤ ((entry.getD {}).etaSeconds).getD 0
            rcases he : (entry.getD {}).etaSeconds with _ | e
            · simp
            · simpa using hcache e he
          · simp only [hr, if_true]
            refine ⟨_, rfl, ?_, hsp⟩
            exact hg r rfl
  have hsome : ∀ la ln, la ≠ 0 → ln ≠ 0 →
      (computeBusETA dm ⟨id, plate, some la, some ln, sp, lu⟩ entry now g).payload ≠ none := by
    intro la ln hla hln
    simp only [computeBusETA]
    rw [if_neg (not_or.mpr ⟨hla, hln⟩)]
    by_cases hstale : STALE_DEVICE_MS < now - lu
    · simp [hstale]
    · rw [if_neg hstale]
      by_cases harr : dm ⟨la, ln⟩ DESTINATION ≤ ARRIVAL_DISTANCE_M
      · simp [harr]
      · rw [if_neg harr]
        rcases hr : shouldRefreshEta (entry.getD {}) now
        · simp [hr]
        · rcases g <;> simp [hr]
  constructor
  · constructor
    · intro hnone
      by_contra hcoord
      push_neg at hcoord
      obtain ⟨h1, h2, h3, h4⟩ := hcoord
      rcases lat0 with _ | la
      · exact h1 rfl
      · rcases lon0 with _ | ln
        · exact h3 rfl
        · have hla : la ≠ 0 := fun h => h2 (by rw [h])
          have hln : ln ≠ 0 := fun h => h4 (by rw [h])
          exact hsome la ln hla hln hnone
    · intro h
      rcases h with h | h | h | h <;> subst h <;>
        first
        | (rcases lon0 with _ | ln <;> simp [computeBusETA])
        | (rcases lat0 with _ | la <;> simp [computeBusETA])
  · intro la ln hla hla0 hln hln0 hsp hcache hg
    subst hla; subst hln
    exact hbranch la ln hla0 hln0 hsp hcache hg

/-- Closed instance of `C7_total`: a first fix with usable coordinates and a
successful 90 s provider reply yields a non-null payload. -/
theorem C7_total_witness :
    (computeBusETA (fun _ _ => 5000) ⟨"bus-1", none, some 1, some 2, 40, 95000⟩
        none 100000 (some { durationSeconds := 90, routePoints := [] })).payload.isSome =
      true := by
  obtain ⟨p, hp, -, -⟩ :=
    (C7_total (fun _ _ => 5000) "bus-1" none (some 1) (some 2) 40 95000 100000 none
        (some { durationSeconds := 90, routePoints := [] })).2 1 2 rfl (by norm_num) rfl
      (by norm_num) (by norm_num) (fun e he => by simp at he)
      (fun r hr => by cases hr; norm_num)
  rw [hp]
  rfl

/-- A Kalman step at a nonnegative measurement preserves nonnegativity of the
filter value and error covariance (the updated value is a convex combination
of the previous value and the measurement). -/
theorem kalmanFilter1D_nonneg (fs : Option Kalman1D) (m Q R : ℚ)
    (hm : 0 ≤ m) (hQ : 0 ≤ Q) (hR : 0 ≤ R)
    (hf : ∀ f, fs = some f → 0 ≤ f.value ∧ 0 ≤ f.errorCovariance) :
    0 ≤ (kalmanFilter1D fs m Q R).value ∧ 0 ≤ (kalmanFilter1D fs m Q R).errorCovariance := by
  rcases fs with _ | f
  · simpa [kalmanFilter1D] using hm
  · obtain ⟨hv, hc⟩ := hf f rfl
    simp only [kalmanFilter1D]
    have hpc : 0 ≤ f.errorCovariance + Q := by linarith
    set G := (f.errorCovariance + Q) / (f.errorCovariance + Q + R) with hG
    have hgain0 : 0 ≤ G := div_nonneg hpc (by linarith)
    have hgain1 : G ≤ 1 := by
      by_cases hd : f.errorCovariance + Q + R = 0
      · rw [hG, hd, div_zero]; norm_num
      · have hdpos : 0 < f.errorCovariance + Q + R :=
          lt_of_le_of_ne (by linarith) (Ne.symm hd)
        exact div_le_one_of_le (by linarith) (le_of_lt hdpos)
    constructor
    · have hconv : f.value + G * (m - f.value) = (1 - G) * f.value + G * m := by ring
      rw [hconv]
      exact add_nonneg (mul_nonneg (by linarith) hv) (mul_nonneg hgain0 hm)
    · exact mul_nonneg (by linarith) hpc

/-- The first rate-limit of `smoothETA` produces a nonnegative target from a
nonnegative previous EMA and a nonnegative clamped measurement. -/
theorem targetETA_nonneg (p c : ℚ) (hp : 0 ≤ p) (hc : 0 ≤ c) :
    0 ≤ if 0 < p then
          (if c < p - p * 0.05 then p - p * 0.05
           else if p + p * 0.02 < c then p + p * 0.02 else c)
        else c := by
  split
  · rename_i hpos
    split
    · linarith
    · split
      · linarith
      · exact hc
  · exact hc

/-- `smoothETA` preserves the smoothing-state invariant: nonnegative EMA and
a nonnegative Kalman sub-state. -/
theorem smoothETA_invariant (s : Option EtaSmooth) (raw : Option ℚ) (sp d : ℚ)
    (hs : ∀ st, s = some st → EtaInvariant st) : EtaInvariant (smoothETA s raw sp d) := by
  have hzero : EtaInvariant { eta := 0, etaFilter := none, etaEMA := 0 } :=
    ⟨le_refl 0, fun f hf => by simp at hf⟩
  rcases raw with _ | r
  · rcases s with _ | st
    · exact hzero
    · exact hs st rfl
  · simp only [smoothETA]
    by_cases hneg : r < 0
    · rw [if_pos hneg]
      rcases s with _ | st
      · exact hzero
      · exact hs st rfl
    · rw [if_neg hneg]
      push_neg at hneg
      have hclamp : (0 : ℚ) ≤ 0 ⊔ 3600 ⊓ r := le_max_left 0 _
      rcases s with _ | st
      · simp only [Option.map_none, Option.getD_none, Option.none_bind, Option.getD]
        set F := kalmanFilter1D none (0 ⊔ 3600 ⊓ r) 1 15 with hF
        have hFn : 0 ≤ F.value ∧ 0 ≤ F.errorCovariance :=
          kalmanFilter1D_nonneg none _ 1 15 hclamp (by norm_num) (by norm_num)
            (fun f hf => by simp at hf)
        have hE : 0 ≤ exponentialMovingAverage (some (0 ⊔ 3600 ⊓ r)) F.value 0.05 := by
          simp only [exponentialMovingAverage]
          have := hFn.1
          linarith [hclamp]
        refine ⟨hE, fun f hf => ?_⟩
        have hfF : f = F := (Option.some.inj hf).symm
        rw [hfF]
        exact hFn
      · obtain ⟨hema0, hfil⟩ := hs st rfl
        simp only [Option.map_some, Option.getD_some, Option.some_bind]
        set T := (if 0 < st.etaEMA then
            (if 0 ⊔ 3600 ⊓ r < st.etaEMA - st.etaEMA * 0.05 then st.etaEMA - st.etaEMA * 0.05
             else if st.etaEMA + st.etaEMA * 0.02 < 0 ⊔ 3600 ⊓ r then st.etaEMA + st.etaEMA * 0.02
             else 0 ⊔ 3600 ⊓ r)
          else 0 ⊔ 3600 ⊓ r) with hT
        have hT0 : 0 ≤ T := hT ▸ targetETA_nonneg st.etaEMA (0 ⊔ 3600 ⊓ r) hema0 hclamp
        set F := kalmanFilter1D st.etaFilter T 1 15 with hF
        have hFn : 0 ≤ F.value ∧ 0 ≤ F.errorCovariance :=
          kalmanFilter1D_nonneg st.etaFilter T 1 15 hT0 (by norm_num) (by norm_num) hfil
        set E := exponentialMovingAverage (some st.etaEMA) F.value 0.05 with hE
        have hE0 : 0 ≤ E := by
          rw [hE]
          simp only [exponentialMovingAverage]
          have := hFn.1
          linarith
        have hA0 : 0 ≤ (if 0 < st.etaEMA then
            (if st.etaEMA * 0.05 < |E - st.etaEMA| then
              (if E < st.etaEMA then st.etaEMA - st.etaEMA * 0.05
               else st.etaEMA + st.etaEMA * 0.05)
             else E)
          else E) := by
          split
          · rename_i hpos
            split
            · split <;> linarith
            · exact hE0
          · exact hE0
        refine ⟨hA0, fun f hf => ?_⟩
        have hfF : f = F := (Option.some.inj hf).symm
        rw [hfF]
        exact hFn

/-- C4, counterexample: from the smoothing state with previous EMA 100 and
Kalman sub-state value 1000, a valid raw measurement of 3600 s drives the
smoothed output to 105 — a 5% increase over the previous EMA, exceeding the
claimed 2% increase bound. -/
theorem C4_counterexample :
    (smoothETA
        (some { eta := 100, etaFilter := some { value := 1000, errorCovariance := 1 },
                etaEMA := 100 })
        (some 3600) 0 0).etaEMA = 105 ∧
      (100 : ℚ) + 100 * 0.02 < 105 := by
  constructor
  · norm_num [smoothETA, kalmanFilter1D, exponentialMovingAverage, abs]
  · norm_num

/-- The final rate-limit clamp of `smoothETA` confines the output to the
symmetric 5% band around the previous EMA, and the floor at 0 is inactive
there. -/
theorem clamp_band_max (p E : ℚ) (hp : 0 < p) :
    (p - p * 0.05 ≤ 0 ⊔ (if p * 0.05 < |E - p| then
        (if E < p then p - p * 0.05 else p + p * 0.05) else E)) ∧
    (0 ⊔ (if p * 0.05 < |E - p| then
        (if E < p then p - p * 0.05 else p + p * 0.05) else E) ≤ p + p * 0.05) ∧
    ((if p * 0.05 < |E - p| then
        (if E < p then p - p * 0.05 else p + p * 0.05) else E) =
      0 ⊔ (if p * 0.05 < |E - p| then
        (if E < p then p - p * 0.05 else p + p * 0.05) else E)) := by
  by_cases hcond : p * 0.05 < |E - p|
  · rw [if_pos hcond]
    by_cases hEp : E < p
    · rw [if_pos hEp]
      rw [sup_eq_right.mpr (by linarith : (0:ℚ) ≤ p - p * 0.05)]
      exact ⟨le_refl _, by linarith, rfl⟩
    · rw [if_neg hEp]
      rw [sup_eq_right.mpr (by linarith : (0:ℚ) ≤ p + p * 0.05)]
      exact ⟨by linarith, le_refl _, rfl⟩
  · have habs := hcond
    rw [not_lt, abs_le] at habs
    rw [if_neg hcond]
    rw [sup_eq_right.mpr (by linarith [habs.1] : (0:ℚ) ≤ E)]
    exact ⟨by linarith [habs.1], by linarith [habs.2], rfl⟩

/-- C4, amended: for every smoothing state with a positive previous ETA EMA
and every valid (nonnegative) raw ETA measurement, the smoothed output of
`smoothETA` stays within the symmetric 5% band around the previous EMA: at
most a 5% decrease and at most a 5% increase (the final clamp is symmetric,
so increases up to 5% — not 2% — can occur, as `C4_counterexample` shows). -/
theorem C4_rate_limit (st : EtaSmooth) (r sp d : ℚ) (hema : 0 < st.etaEMA) (hr : 0 ≤ r) :
    st.etaEMA - st.etaEMA * 0.05 ≤ (smoothETA (some st) (some r) sp d).eta ∧
    (smoothETA (some st) (some r) sp d).eta ≤ st.etaEMA + st.etaEMA * 0.05 ∧
    (smoothETA (some st) (some r) sp d).etaEMA = (smoothETA (some st) (some r) sp d).eta := by
  simp only [smoothETA]
  rw [if_neg (not_lt.mpr hr)]
  simp only [hema, if_true, Option.map_some, Option.getD_some, Option.some_bind]
  exact clamp_band_max st.etaEMA _ hema

/-- Closed instance of `C4_rate_limit` at the `C4_counterexample` state: the
output 105 sits exactly at the upper edge of the 5% band around 100. -/
theorem C4_rate_limit_witness :
    (0 : ℚ) < 100 ∧
    (100 : ℚ) - 100 * 0.05 ≤
      (smoothETA
        (some { eta := 100, etaFilter := some { value := 1000, errorCovariance := 1 },
                etaEMA := 100 })
        (some 3600) 0 0).eta :=
  ⟨by norm_num,
   (C4_rate_limit
      { eta := 100, etaFilter := some { value := 1000, errorCovariance := 1 },
        etaEMA := 100 }
      3600 0 0 (by norm_num) (by norm_num)).1⟩

/-- C8: the pipeline preserves the nonnegativity invariants — every cache
entry `computeBusETA` writes has a nonnegative `etaSeconds` (given that the
provider only ever reports nonnegative durations), and a `smoothETA` update
of a state satisfying the smoothing invariant satisfies it again, so the
stored `etaEMA` stays nonnegative. -/
theorem C8_invariant (dm : Coord → Coord → ℚ) (dev : Device) (entry : Option Cache)
    (now : ℚ) (g : Option RouteData) (s : Option EtaSmooth) (raw : Option ℚ) (sp d : ℚ)
    (hg : ∀ r, g = some r → 0 ≤ r.durationSeconds)
    (hs : ∀ st, s = some st → EtaInvariant st) :
    (∀ c, (computeBusETA dm dev entry now g).cacheWrite = some c →
      ∀ e, c.etaSeconds = some e → 0 ≤ e) ∧
    EtaInvariant (smoothETA s raw sp d) ∧ 0 ≤ (smoothETA s raw sp d).etaEMA := by
  have hsm := smoothETA_invariant s raw sp d hs
  refine ⟨?_, hsm, hsm.1⟩
  intro c hc e he
  obtain ⟨id, plate, lat0, lon0, sp2, lu⟩ := dev
  rcases lat0 with _ | la
  · simp [computeBusETA] at hc
  · rcases lon0 with _ | ln
    · simp [computeBusETA] at hc
    · simp only [computeBusETA] at hc
      by_cases h0 : la = 0 ∨ ln = 0
      · rw [if_pos h0] at hc; simp at hc
      · rw [if_neg h0] at hc
        by_cases hstale : STALE_DEVICE_MS < now - lu
        · rw [if_pos hstale] at hc; simp at hc
        · rw [if_neg hstale] at hc
          by_cases harr : dm ⟨la, ln⟩ DESTINATION ≤ ARRIVAL_DISTANCE_M
          · rw [if_pos harr] at hc
            simp only [Option.some.injEq] at hc
            rw [← hc] at he
            simp only [Option.some.injEq] at he
            rw [← he]
          · rw [if_neg harr] at hc
            rcases hr : shouldRefreshEta (entry.getD {}) now
            · simp [hr] at hc
            · rcases hgq : g with _ | gr
              · rw [hgq] at hc; simp [hr] at hc
              · rw [hgq] at hc
                simp only [hr, if_true, Option.some.injEq] at hc
                rw [← hc] at he
                simp only [Option.some.injEq] at he
                rw [← he]
                exact hg gr hgq

/-- Closed instance of `C8_invariant`: the 90 s ETA a successful refresh
writes into the cache is nonnegative, and one smoothing update from scratch
yields a nonnegative EMA. -/
theorem C8_invariant_witness :
    (0 : ℚ) ≤ 90 ∧ 0 ≤ (smoothETA none (some 300) 40 5000).etaEMA :=
  ⟨(C8_invariant (fun _ _ => 5000) ⟨"bus-1", none, some 1, some 2, 40, 95000⟩ none 100000
      (some { durationSeconds := 90, routePoints := [] }) none (some 300) 40 5000
      (fun r hr => by cases hr; norm_num) (fun st hst => by simp at hst)).1
    { etaSeconds := some 90, route := some [], lastEtaUpdate := some 100000,
      previousEta := none }
    (by norm_num [computeBusETA, shouldRefreshEta, STALE_DEVICE_MS, ARRIVAL_DISTANCE_M]) 90 rfl,
   (C8_invariant (fun _ _ => 5000) ⟨"bus-1", none, some 1, some 2, 40, 95000⟩ none 100000
      (some { durationSeconds := 90, routePoints := [] }) none (some 300) 40 5000
      (fun r hr => by cases hr; norm_num) (fun st hst => by simp at hst)).2.2⟩

/-- The chunk encoder never emits an empty chunk list. -/
theorem chunksFuel_ne_nil (fuel s : ℕ) : chunksFuel fuel s ≠ [] := by
  cases fuel
  · simp [chunksFuel]
  · simp only [chunksFuel]
    split <;> simp

/-- Decoding one varint run over an encoded chunk list recovers the encoded
value and leaves the rest of the input untouched. -/
theorem decodeVarint_chunksFuel (fuel : ℕ) :
    ∀ s : ℕ, s ≤ fuel → ∀ (r : List ℕ) (sh : ℕ) (acc : ℤ),
      decodeVarint (chunksFuel fuel s ++ r) sh acc = (acc + (s : ℤ) * 2 ^ sh, r) := by
  induction fuel with
  | zero =>
    intro s hs r sh acc
    have hs0 : s = 0 := Nat.le_zero.mp hs
    subst hs0
    simp [chunksFuel, decodeVarint]
  | succ f ih =>
    intro s hs r sh acc
    by_cases h32 : s < 32
    · simp only [chunksFuel, if_pos h32, List.cons_append, decodeVarint]
      have hb : ((s + 63 : ℕ) : ℤ) - 63 = (s : ℤ) := by push_cast; ring
      simp only [hb]
      rw [if_neg (not_le.mpr (by exact_mod_cast h32))]
      have hmod : (s : ℤ) % 32 = (s : ℤ) :=
        Int.emod_eq_of_lt (Int.natCast_nonneg s) (by exact_mod_cast h32)
      rw [hmod]
      simp
    · simp only [chunksFuel, if_neg h32, List.cons_append, decodeVarint]
      have hb : ((63 + 32 + s % 32 : ℕ) : ℤ) - 63 = 32 + ((s % 32 : ℕ) : ℤ) := by
        push_cast; ring
      simp only [hb]
      rw [if_pos (by linarith [Int.natCast_nonneg (s % 32)] :
        (32 : ℤ) ≤ 32 + ((s % 32 : ℕ) : ℤ))]
      have hmodlt : s % 32 < 32 := Nat.mod_lt s (by norm_num)
      have hmod : ((32 : ℤ) + ((s % 32 : ℕ) : ℤ)) % 32 = ((s % 32 : ℕ) : ℤ) := by omega
      rw [hmod]
      have hdiv : s / 32 ≤ f := by
        have h1 : s / 32 < s := Nat.div_lt_self (by omega) (by norm_num)
        omega
      rw [ih (s / 32) hdiv r (sh + 5) _]
      have hsplit : (s : ℤ) = 32 * ((s / 32 : ℕ) : ℤ) + ((s % 32 : ℕ) : ℤ) := by
        push_cast
        omega
      have hpow : (2 : ℤ) ^ (sh + 5) = 2 ^ sh * 32 := by
        rw [pow_add]; norm_num
      simp only [Prod.mk.injEq]
      refine ⟨?_, trivial⟩
      rw [hpow, hsplit]
      ring

/-- The decoder's two's-complement unpacking inverts the encoder's zigzag
mapping. -/
theorem unzigzag_zigzag (v : ℤ) : unzigzag ((zigzag v : ℕ) : ℤ) = v := by
  unfold unzigzag zigzag
  by_cases hv : v < 0
  · rw [if_pos hv, Int.toNat_of_nonneg (by omega : (0 : ℤ) ≤ -(2 * v) - 1)]
    rw [if_pos (by omega : (-(2 * v) - 1) % 2 ≠ 0)]
    omega
  · rw [if_neg hv, Int.toNat_of_nonneg (by omega : (0 : ℤ) ≤ 2 * v)]
    rw [if_neg (by omega : ¬ (2 * v) % 2 ≠ 0)]
    omega

/-- Running the decoder loop over an encoded delta sequence, with enough fuel,
recovers every scaled integer coordinate divided by the 1e5 scale factor. -/
theorem decodeLoop_encodeDeltas (pts : List (ℤ × ℤ)) :
    ∀ (plat plng : ℤ) (fuel : ℕ), (encodeDeltas pts plat plng).length ≤ fuel →
      decodeLoop fuel (encodeDeltas pts plat plng) plat plng =
        pts.map fun q => (⟨(q.1 : ℚ) / 100000, (q.2 : ℚ) / 100000⟩ : Coord) := by
  induction pts with
  | nil =>
    intro plat plng fuel hf
    cases fuel <;> simp [encodeDeltas, decodeLoop]
  | cons hd tl ih =>
    obtain ⟨la, ln⟩ := hd
    intro plat plng fuel hf
    simp only [encodeDeltas, encodeValue] at hf ⊢
    rw [List.append_assoc]
    have hne := chunksFuel_ne_nil (zigzag (la - plat)) (zigzag (la - plat))
    rcases fuel with _ | f
    · exfalso
      rcases hE : chunksFuel (zigzag (la - plat)) (zigzag (la - plat)) with _ | ⟨c, t⟩
      · exact hne hE
      · rw [hE] at hf; simp at hf
    · rcases hE : chunksFuel (zigzag (la - plat)) (zigzag (la - plat)) with _ | ⟨c, t⟩
      · exact absurd hE hne
      · have hlen : (encodeDeltas tl la ln).length ≤ f := by
          rw [hE] at hf
          simp [List.length_append] at hf
          omega
        simp only [decodeLoop, List.append_eq]
        rw [show c :: (t ++ (chunksFuel (zigzag (ln - plng)) (zigzag (ln - plng)) ++
              encodeDeltas tl la ln)) =
            chunksFuel (zigzag (la - plat)) (zigzag (la - plat)) ++
              (chunksFuel (zigzag (ln - plng)) (zigzag (ln - plng)) ++
                encodeDeltas tl la ln) from by rw [hE]; simp]
        rw [decodeVarint_chunksFuel (zigzag (la - plat)) (zigzag (la - plat)) le_rfl _ 0 0]
        simp only [pow_zero, mul_one, zero_add]
        rw [decodeVarint_chunksFuel (zigzag (ln - plng)) (zigzag (ln - plng)) le_rfl _ 0 0]
        simp only [pow_zero, mul_one, zero_add, unzigzag_zigzag]
        have hla : plat + (la - plat) = la := by ring
        have hln : plng + (ln - plng) = ln := by ring
        rw [hla, hln, ih la ln f hlen]
        simp

/-- Rounding a coordinate to the 1e5 grid and scaling back moves it by at
most half a grid cell, hence by at most `1e-5` degrees. -/
theorem jsRound_div_close (x : ℚ) :
    |((jsRound (x * 100000) : ℤ) : ℚ) / 100000 - x| ≤ 1 / 100000 := by
  unfold jsRound
  have h1 : ((⌊x * 100000 + 1 / 2⌋ : ℤ) : ℚ) ≤ x * 100000 + 1 / 2 := Int.floor_le _
  have h2 : x * 100000 + 1 / 2 < ((⌊x * 100000 + 1 / 2⌋ : ℤ) : ℚ) + 1 := Int.lt_floor_add_one _
  rw [abs_le]
  constructor <;> linarith

/-- C9: encoding a path of geographic coordinates with the polyline codec and
decoding the result reproduces the path within `1e-5` degrees per point.  The
coordinate bounds keep every intermediate scaled integer far below `2^31`,
where the embedding's exact integers agree with the 32-bit bitwise arithmetic
the JS decoder uses. -/
theorem C9_roundtrip (path : List Coord)
    (hb : ∀ p ∈ path, |p.lat| ≤ 90 ∧ |p.lng| ≤ 180) :
    List.Forall₂ (fun p q => |p.lat - q.lat| ≤ 1 / 100000 ∧ |p.lng - q.lng| ≤ 1 / 100000)
      (decodePolyline (encodePolyline path)) path := by
  unfold decodePolyline encodePolyline
  have hmain := decodeLoop_encodeDeltas
    (path.map fun p => (jsRound (p.lat * 100000), jsRound (p.lng * 100000))) 0 0
    (encodeDeltas (path.map fun p => (jsRound (p.lat * 100000), jsRound (p.lng * 100000)))
      0 0).length le_rfl
  rw [hmain, List.map_map, List.forall₂_map_left_iff, List.forall₂_same]
  intro p hp
  simp only [Function.comp_apply]
  exact ⟨jsRound_div_close p.lat, jsRound_div_close p.lng⟩

/-- Closed instance of `C9_roundtrip` on the classic `(38.5, -120.2)` sample
point. -/
theorem C9_roundtrip_witness :
    List.Forall₂ (fun p q : Coord => |p.lat - q.lat| ≤ 1 / 100000 ∧ |p.lng - q.lng| ≤ 1 / 100000)
      (decodePolyline (encodePolyline [⟨38.5, -120.2⟩])) [⟨38.5, -120.2⟩] :=
  C9_roundtrip _ (by
    intro p hp
    rw [List.mem_singleton] at hp
    subst hp
    refine ⟨?_, ?_⟩ <;> rw [abs_le] <;> constructor <;> norm_num)

end Server3
